import Mathlib

/-!
# Verification of the TheGioiDiDong analytics platform against its specification

Shallow embedding of the three scripts of the repository:
* `1_dataset_download.py` — synthetic data generator (name transliteration,
  city/state/region table);
* `3_etl_pipeline.py` — ETL pipeline (transform, key-diff load, quality checks);
* `5_ml_environment_setup.py` — RFM feature construction (quantile binning).

DataFrames are embedded as `List` of row structures; pandas joins are
list-comprehension joins; nullable SQL/CSV columns are `Option`; machine
floats for money columns are idealised as `ℚ`; timestamps are `Int` seconds
since an epoch and calendar dates are `Int` days since an epoch.
-/

namespace TGDD

/-! ## Generic list combinators for the pandas operations used by the code -/

/-- Embeds `incoming[~incoming[key].isin(existing)]` — the "diff against existing
keys" idiom of `load_data`.  Pandas `isin` compares NaN equal to NaN, which
matches plain equality on `Option` keys. -/
def keyDiff {R K : Type} [DecidableEq K] (existing : List K) (incoming : List R)
    (key : R → K) : List R :=
  incoming.filter (fun r => decide (key r ∉ existing))

/-- Embeds `xs.merge(ys, how='inner')` with match predicate `m`: every pair of
matching rows produces one output row. -/
def innerJoin {A B C : Type} (xs : List A) (ys : List B) (m : A → B → Bool)
    (comb : A → B → C) : List C :=
  xs.flatMap (fun x => (ys.filter (m x)).map (comb x))

/-- Embeds `xs.merge(ys, how='left')`: a left row with no match is kept once with a
null (`none`) right side. -/
def leftJoin {A B C : Type} (xs : List A) (ys : List B) (m : A → B → Bool)
    (comb : A → Option B → C) : List C :=
  xs.flatMap (fun x =>
    match ys.filter (m x) with
    | [] => [comb x none]
    | l => l.map (fun y => comb x (some y)))

/-- Surrogate keys handed out by the warehouse's identity column on append. -/
def assignKeys {R : Type} : Nat → List R → List (Nat × R)
  | _, [] => []
  | start, r :: rs => (start, r) :: assignKeys (start + 1) rs

/-! ## Data model (`3_etl_pipeline.py`)

Row structures keep the columns the verified claims touch; purely decorative
columns of the CSVs (names, phones, emails, …) are elided.  Nullable columns
are `Option`. -/

/-- A row of `customers.csv` as seen by `transform_data` / `load_data`. -/
structure CustomerRow where
  customer_id : Option String
  customer_state : String
  customer_region : Option String
  customer_tier : String
  deriving Repr, DecidableEq

/-- A row of `products.csv` (enrichment columns elided). -/
structure ProductRow where
  product_id : Option String
  deriving Repr, DecidableEq

/-- A row of `sellers.csv` (enrichment columns elided). -/
structure SellerRow where
  seller_id : Option String
  deriving Repr, DecidableEq

/-- A row of `orders.csv`.  Timestamps are seconds since an epoch; `None`
models `NaT` produced by `pd.to_datetime(..., errors='coerce')`. -/
structure OrderRow where
  order_id : String
  customer_id : Option String
  order_status : String
  order_purchase_timestamp : Option Int
  order_approved_at : Option Int
  order_delivered_customer_date : Option Int
  order_estimated_delivery_date : Option Int
  deriving Repr, DecidableEq

/-- A row of `order_items.csv`.  Money columns idealised as `ℚ`. -/
structure OrderItemRow where
  order_id : String
  order_item_id : Nat
  product_id : Option String
  seller_id : Option String
  price : ℚ
  freight_value : ℚ
  deriving Repr, DecidableEq

/-- A row of `order_payments.csv`. -/
structure PaymentRow where
  order_id : String
  payment_installments : Int
  deriving Repr, DecidableEq

/-- A merged `orders ⋈ order_items` row with the derived delivery metrics
of `transform_data`. -/
structure OrdersMergedRow where
  order_id : String
  order_item_id : Nat
  customer_id : Option String
  product_id : Option String
  seller_id : Option String
  order_status : String
  order_purchase_timestamp : Option Int
  order_approved_at : Option Int
  order_delivered_customer_date : Option Int
  order_estimated_delivery_date : Option Int
  price : ℚ
  freight_value : ℚ
  delivery_delay_days : Option Int
  is_delivered_ontime : Int
  is_fast_delivery : Int
  payment_installments : Option Int
  deriving Repr, DecidableEq

/-- The dictionary of frames flowing through the pipeline; `none` models a
missing CSV file (skipped with a warning by `extract_data`). -/
structure Datasets where
  customers : Option (List CustomerRow) := none
  products : Option (List ProductRow) := none
  sellers : Option (List SellerRow) := none
  orders : Option (List OrderRow) := none
  order_items : Option (List OrderItemRow) := none
  order_payments : Option (List PaymentRow) := none
  orders_merged : Option (List OrdersMergedRow) := none
  deriving Repr, DecidableEq

/-! ## Transform stage (`transform_data`) -/

/-- The Brazilian state→region dictionary of `transform_data`. -/
def state_to_region : List (String × String) :=
  [("SP", "Southeast"), ("RJ", "Southeast"), ("MG", "Southeast"), ("ES", "Southeast"),
   ("RS", "South"), ("SC", "South"), ("PR", "South"),
   ("BA", "Northeast"), ("PE", "Northeast"), ("CE", "Northeast"), ("MA", "Northeast"),
   ("PI", "Northeast"), ("RN", "Northeast"), ("PB", "Northeast"), ("AL", "Northeast"),
   ("SE", "Northeast"),
   ("GO", "Central-West"), ("MT", "Central-West"), ("MS", "Central-West"),
   ("DF", "Central-West"),
   ("AM", "North"), ("PA", "North"), ("AC", "North"), ("RO", "North"), ("RR", "North"),
   ("AP", "North")]

/-- Embeds `Series.map(state_to_region)`: an unknown state maps to NaN (`none`). -/
def regionOfState (s : String) : Option String :=
  (state_to_region.find? (fun p => p.1 == s)).map Prod.snd

/-- Embeds `np.random.choice(['Bronze','Silver','Gold','Platinum'], p=[0.4,0.3,0.2,0.1])`
for one uniform draw `r ∈ [0,1)`: inverse-CDF sampling with cumulative weights
0.4, 0.7, 0.9, 1. -/
def tierChoice (r : ℚ) : String :=
  if r < 4/10 then "Bronze"
  else if r < 7/10 then "Silver"
  else if r < 9/10 then "Gold"
  else "Platinum"

/-- The customers branch of `transform_data`, one row: overwrite
`customer_tier` with the random draw and `customer_region` with the
state→region lookup. -/
def transformCustomer (r : ℚ) (c : CustomerRow) : CustomerRow :=
  { c with
    customer_tier := tierChoice r
    customer_region := regionOfState c.customer_state }

/-- The vectorised tier draw: row `i` of the frame consumes draw `draws i`. -/
def transformCustomers (draws : Nat → ℚ) : Nat → List CustomerRow → List CustomerRow
  | _, [] => []
  | i, c :: cs => transformCustomer (draws i) c :: transformCustomers draws (i + 1) cs

/-- Embeds `(delivered - estimated).dt.days`: pandas `Timedelta.days` floors the
signed difference to whole days (86400 s); NaT propagates to NaN. -/
def deliveryDelayDays (delivered estimated : Option Int) : Option Int :=
  match delivered, estimated with
  | some d, some e => some (Int.fdiv (d - e) 86400)
  | _, _ => none

/-- Embeds `(delay <= 0).astype(int)`; NaN compares false, so a NaN delay yields 0. -/
def ontimeFlag (delay : Option Int) : Int :=
  match delay with
  | some d => if d ≤ 0 then 1 else 0
  | none => 0

/-- Embeds `(delay < 0).astype(int)`; NaN compares false, so a NaN delay yields 0. -/
def fastFlag (delay : Option Int) : Int :=
  match delay with
  | some d => if d < 0 then 1 else 0
  | none => 0

/-- Embeds `orders.merge(order_items, on='order_id', how='inner')`: one output row
per matching pair; derived columns not yet computed. -/
def mergeOrderItem (o : OrderRow) (it : OrderItemRow) : OrdersMergedRow :=
  { order_id := o.order_id
    order_item_id := it.order_item_id
    customer_id := o.customer_id
    product_id := it.product_id
    seller_id := it.seller_id
    order_status := o.order_status
    order_purchase_timestamp := o.order_purchase_timestamp
    order_approved_at := o.order_approved_at
    order_delivered_customer_date := o.order_delivered_customer_date
    order_estimated_delivery_date := o.order_estimated_delivery_date
    price := it.price
    freight_value := it.freight_value
    delivery_delay_days := none
    is_delivered_ontime := 0
    is_fast_delivery := 0
    payment_installments := none }

/-- The delivery-metric columns added to the merged frame. -/
def addDeliveryMetrics (r : OrdersMergedRow) : OrdersMergedRow :=
  let delay := deliveryDelayDays r.order_delivered_customer_date
      r.order_estimated_delivery_date
  { r with
    delivery_delay_days := delay
    is_delivered_ontime := ontimeFlag delay
    is_fast_delivery := fastFlag delay }

/-- Embeds `payments.groupby('order_id')['payment_installments'].sum()` joined back
with `how='left'`: the sum when the order has payment rows, NaN otherwise. -/
def paymentSum (payments : List PaymentRow) (oid : String) : Option Int :=
  match payments.filter (fun p => p.order_id == oid) with
  | [] => none
  | ps => some (ps.map PaymentRow.payment_installments).sum

/-- The payments step of the orders branch: left-join the aggregated
installment sums when `order_payments` was extracted, else the constant
column 1. -/
def addPayments (payments : Option (List PaymentRow)) (r : OrdersMergedRow) :
    OrdersMergedRow :=
  match payments with
  | some ps => { r with payment_installments := paymentSum ps r.order_id }
  | none => { r with payment_installments := some 1 }

/-- The orders branch of `transform_data`: inner merge, delivery metrics,
payment installments. -/
def transformOrders (orders : List OrderRow) (items : List OrderItemRow)
    (payments : Option (List PaymentRow)) : List OrdersMergedRow :=
  ((innerJoin orders items (fun o it => o.order_id == it.order_id) mergeOrderItem).map
      addDeliveryMetrics).map (addPayments payments)

/-- Embeds `transform_data`: transforms the customer frame (tier draw, region map)
and builds `orders_merged` when both `orders` and `order_items` are present.
The product/seller enrichments (volume, density, seller tier/rating) touch no
verified claim and are elided. -/
def transform_data (tierDraws : Nat → ℚ) (ds : Datasets) : Datasets :=
  let ds1 :=
    match ds.customers with
    | some cs => { ds with customers := some (transformCustomers tierDraws 0 cs) }
    | none => ds
  match ds1.orders, ds1.order_items with
  | some os, some its =>
      { ds1 with orders_merged := some (transformOrders os its ds1.order_payments) }
  | _, _ => ds1

/-! ## Load stage (`load_data`) -/

/-- A row of the pre-populated `dim_date` dimension: `full_date` is a
calendar date in days since an epoch. -/
structure DateRow where
  date_key : Nat
  full_date : Int
  deriving Repr, DecidableEq

/-- A row of `fact_sales` as assembled by `load_data` (the `fact_columns`
projection plus the derived key columns). -/
structure FactRow where
  order_id : String
  order_item_id : Nat
  customer_key : Nat
  product_key : Nat
  seller_key : Nat
  order_date_key : Option Nat
  order_status : String
  price : ℚ
  freight_value : ℚ
  payment_installments : Option Int
  order_purchase_timestamp : Option Int
  order_delivered_customer_date : Option Int
  order_estimated_delivery_date : Option Int
  delivery_delay_days : Option Int
  is_delivered_ontime : Int
  is_fast_delivery : Int
  total_value : ℚ
  delivery_date_key : Option Nat
  location_key : Nat
  created_date : Int
  updated_date : Int
  deriving Repr, DecidableEq

/-- The star-schema warehouse.  Dimension rows carry the surrogate key
assigned by the database identity column. -/
structure Warehouse where
  dim_customer : List (Nat × CustomerRow)
  dim_product : List (Nat × ProductRow)
  dim_seller : List (Nat × SellerRow)
  dim_date : List DateRow
  fact_sales : List FactRow
  deriving Repr, DecidableEq

/-- Pandas `merge` key equality on nullable columns: NaN matches nothing. -/
def optKeyEq (a b : Option String) : Bool :=
  match a, b with
  | some x, some y => x == y
  | _, _ => false

/-- Embeds `timestamp.dt.date`: the calendar day of a second-resolution timestamp. -/
def dateOf (t : Int) : Int := Int.fdiv t 86400

/-- One dimension-table load block of `load_data`: read existing primary
keys, keep only incoming rows with unseen keys, append (the database assigns
fresh surrogate keys); skip the block when the frame is absent, and skip the
append when nothing is new. -/
def loadDimTable {R : Type} [DecidableEq R] (key : R → Option String)
    (incoming : Option (List R)) (tbl : List (Nat × R)) : List (Nat × R) :=
  match incoming with
  | none => tbl
  | some inc =>
    let newRows := keyDiff (tbl.map (fun p => key p.2)) inc key
    if newRows.isEmpty then tbl
    else tbl ++ assignKeys (tbl.length + 1) newRows

/-- The fact frame built by the fact block of `load_data` before the
order-id diff: inner joins against the three dimensions for surrogate keys,
a left join against `dim_date` on the purchase date for `order_date_key`,
then a left join against the delivery-date slice of `dim_date` for
`delivery_date_key` (still `none` here for rows without one). -/
def buildFactFrame (dimC : List (Nat × CustomerRow)) (dimP : List (Nat × ProductRow))
    (dimS : List (Nat × SellerRow)) (dimD : List DateRow)
    (sales : List OrdersMergedRow) : List FactRow :=
  let s1 := innerJoin sales dimC
    (fun s c => optKeyEq s.customer_id c.2.customer_id) Prod.mk
  let s2 := innerJoin s1 dimP
    (fun sc p => optKeyEq sc.1.product_id p.2.product_id) Prod.mk
  let s3 := innerJoin s2 dimS
    (fun sp l => optKeyEq sp.1.1.seller_id l.2.seller_id) Prod.mk
  let withOrderKey := leftJoin s3 dimD
    (fun t d =>
      match t.1.1.1.order_purchase_timestamp with
      | some ts => dateOf ts == d.full_date
      | none => false)
    (fun t od =>
      let s := t.1.1.1
      ({
        order_id := s.order_id
        order_item_id := s.order_item_id
        customer_key := t.1.1.2.1
        product_key := t.1.2.1
        seller_key := t.2.1
        order_date_key := od.map DateRow.date_key
        order_status := s.order_status
        price := s.price
        freight_value := s.freight_value
        payment_installments := s.payment_installments
        order_purchase_timestamp := s.order_purchase_timestamp
        order_delivered_customer_date := s.order_delivered_customer_date
        order_estimated_delivery_date := s.order_estimated_delivery_date
        delivery_delay_days := s.delivery_delay_days
        is_delivered_ontime := s.is_delivered_ontime
        is_fast_delivery := s.is_fast_delivery
        total_value := s.price + s.freight_value
        delivery_date_key := none
        location_key := 0
        created_date := 0
        updated_date := 0 } : FactRow))
  let deliveryDates :=
    (withOrderKey.filterMap (fun r => r.order_delivered_customer_date.map dateOf)).eraseDups
  let deliveryKeys := dimD.filter (fun d => decide (d.full_date ∈ deliveryDates))
  leftJoin withOrderKey deliveryKeys
    (fun r d =>
      match r.order_delivered_customer_date with
      | some ts => dateOf ts == d.full_date
      | none => false)
    (fun (r : FactRow) dk =>
      { r with delivery_date_key := dk.map DateRow.date_key })

/-- The per-row finalisation of `new_sales` before the append:
`delivery_date_key.fillna(order_date_key)`, the default `location_key = 1`
and the `created_date`/`updated_date` audit stamps. -/
def finalizeFactRow (now : Int) (r : FactRow) : FactRow :=
  { r with
    delivery_date_key :=
      match r.delivery_date_key with
      | none => r.order_date_key
      | some k => some k
    location_key := 1
    created_date := now
    updated_date := now }

/-- The customers block of `load_data`. -/
def loadCustomersStep (ds : Datasets) (w : Warehouse) : Warehouse :=
  { w with dim_customer := loadDimTable CustomerRow.customer_id ds.customers w.dim_customer }

/-- The products block of `load_data`. -/
def loadProductsStep (ds : Datasets) (w : Warehouse) : Warehouse :=
  { w with dim_product := loadDimTable ProductRow.product_id ds.products w.dim_product }

/-- The sellers block of `load_data`. -/
def loadSellersStep (ds : Datasets) (w : Warehouse) : Warehouse :=
  { w with dim_seller := loadDimTable SellerRow.seller_id ds.sellers w.dim_seller }

/-- The fact block of `load_data`: build the fact frame from the (already
loaded) dimensions, diff against existing `order_id`s, finalise and append. -/
def loadFactsStep (now : Int) (ds : Datasets) (w : Warehouse) : Warehouse :=
  match ds.orders_merged with
  | none => w
  | some sales =>
    let frame := buildFactFrame w.dim_customer w.dim_product w.dim_seller w.dim_date sales
    let newSales := keyDiff (w.fact_sales.map FactRow.order_id) frame FactRow.order_id
    if newSales.isEmpty then w
    else { w with fact_sales := w.fact_sales ++ newSales.map (finalizeFactRow now) }

/-- Embeds `load_data` on the success path: the four blocks in source order. -/
def load_data (now : Int) (ds : Datasets) (w : Warehouse) : Warehouse :=
  loadFactsStep now ds (loadSellersStep ds (loadProductsStep ds (loadCustomersStep ds w)))

/-! ## Quality checks (`run_data_quality_checks`) -/

/-- The JSON quality report: timestamp, per-table row counts, the two named
null checks, and the heuristic score. -/
structure QualityReport where
  timestamp : Int
  customers_count : Nat
  products_count : Nat
  orders_count : Nat
  customers_with_null_ids : Nat
  orders_with_null_dates : Nat
  data_quality_score : Int
  deriving Repr, DecidableEq

/-- Embeds `run_data_quality_checks`: three `COUNT(*)` queries, two null-count
queries, and `min(100, max(0, 100 - sum(null_checks) * 10))`. -/
def run_data_quality_checks (now : Int) (w : Warehouse) : QualityReport :=
  let nullCustomers := (w.dim_customer.filter (fun p => p.2.customer_id.isNone)).length
  let nullOrders := (w.fact_sales.filter (fun r => r.order_purchase_timestamp.isNone)).length
  { timestamp := now
    customers_count := w.dim_customer.length
    products_count := w.dim_product.length
    orders_count := w.fact_sales.length
    customers_with_null_ids := nullCustomers
    orders_with_null_dates := nullOrders
    data_quality_score :=
      min 100 (max 0 (100 - ((nullCustomers : Int) + (nullOrders : Int)) * 10)) }

/-! ## Pipeline (`run_etl_pipeline`) with load-failure modelling

A database exception during `load_data` can strike at the boundary of any of
the four load blocks; `failAt = some k` models the backend raising when
block `k` executes, after blocks `0..k-1` committed their appends. -/

/-- The four load blocks of `load_data`, in source order. -/
def loadSteps (now : Int) (ds : Datasets) : List (Warehouse → Warehouse) :=
  [loadCustomersStep ds, loadProductsStep ds, loadSellersStep ds, loadFactsStep now ds]

/-- Run load blocks until completion or until the injected failure point. -/
def runStepsF : List (Warehouse → Warehouse) → Option Nat → Warehouse →
    Warehouse × Option String
  | [], _, w => (w, none)
  | _ :: _, some 0, w => (w, some "database error")
  | s :: rest, some (n + 1), w => runStepsF rest (some n) (s w)
  | s :: rest, none, w => runStepsF rest none (s w)

/-- Fallible `load_data`: on an exception the `except` block logs
`"Error loading data: …"` and re-raises; committed appends stay in place. -/
def load_data_fallible (failAt : Option Nat) (now : Int) (ds : Datasets)
    (w : Warehouse) : Warehouse × List String × Option String :=
  match runStepsF (loadSteps now ds) failAt w with
  | (w', some e) => (w', ["Error loading data: " ++ e], some e)
  | (w', none) => (w', [], none)

/-- The prefix of load blocks that committed before a failure. -/
def applySteps (steps : List (Warehouse → Warehouse)) (k : Nat) (w : Warehouse) :
    Warehouse :=
  (steps.take k).foldl (fun acc s => s acc) w

/-- The dictionary returned by `run_etl_pipeline`: quality report and
records on success, the error string on failure. -/
inductive PipelineResult where
  | success (report : QualityReport) : PipelineResult
  | failed (error : String) : PipelineResult
  deriving Repr, DecidableEq

/-- Embeds `run_etl_pipeline` from the post-extract datasets: transform, fallible
load, then quality checks only when the load raised nothing; a load
exception is logged again at pipeline level and turned into a `failed`
result without running the quality stage or rolling anything back. -/
def run_etl_pipeline (failAt : Option Nat) (tierDraws : Nat → ℚ) (now : Int)
    (ds : Datasets) (w : Warehouse) : Warehouse × List String × PipelineResult :=
  let tds := transform_data tierDraws ds
  match load_data_fallible failAt now tds w with
  | (w', logs, some e) => (w', logs ++ ["ETL Pipeline failed: " ++ e], .failed e)
  | (w', logs, none) => (w', logs, .success (run_data_quality_checks now w'))

/-! ## Synthetic data generator (`1_dataset_download.py`)

Strings are processed at the `List Char` level; `String.data` bridges from
the literal pools. -/

/-- An entry of the generator's `vietnamese_cities` table (customers
variant, which carries the region). -/
structure CityEntry where
  city : String
  state : String
  region : String
  deriving Repr, DecidableEq

def vietnamese_cities : List CityEntry :=
  [⟨"Hanoi", "Hanoi", "North"⟩,
   ⟨"Ho Chi Minh City", "HCMC", "South"⟩,
   ⟨"Da Nang", "Da Nang", "Central"⟩,
   ⟨"Can Tho", "Can Tho", "South"⟩,
   ⟨"Hai Phong", "Hai Phong", "North"⟩,
   ⟨"Bien Hoa", "Dong Nai", "South"⟩,
   ⟨"Buon Ma Thuot", "Dak Lak", "Central Highlands"⟩,
   ⟨"Hue", "Thua Thien Hue", "Central"⟩,
   ⟨"Vung Tau", "Ba Ria-Vung Tau", "South"⟩,
   ⟨"Thu Dau Mot", "Binh Duong", "South"⟩,
   ⟨"Rach Gia", "Kien Giang", "South"⟩,
   ⟨"Long Xuyen", "An Giang", "South"⟩,
   ⟨"Thai Nguyen", "Thai Nguyen", "North"⟩,
   ⟨"Thanh Hoa", "Thanh Hoa", "North"⟩,
   ⟨"Nam Dinh", "Nam Dinh", "North"⟩,
   ⟨"Quang Ninh", "Quang Ninh", "North"⟩,
   ⟨"Da Lat", "Lam Dong", "Central Highlands"⟩,
   ⟨"Nha Trang", "Khanh Hoa", "Central"⟩,
   ⟨"Phan Thiet", "Binh Thuan", "Central"⟩,
   ⟨"Quy Nhon", "Binh Dinh", "Central"⟩,
   ⟨"Pleiku", "Gia Lai", "Central Highlands"⟩,
   ⟨"Tuy Hoa", "Phu Yen", "Central"⟩,
   ⟨"Tam Ky", "Quang Nam", "Central"⟩,
   ⟨"Ha Tinh", "Ha Tinh", "North"⟩,
   ⟨"Vinh", "Nghe An", "North"⟩,
   ⟨"Dong Ha", "Quang Tri", "Central"⟩,
   ⟨"Dong Hoi", "Quang Binh", "North"⟩]

/-- The name pools of `generate_vietnamese_name`, verbatim. -/
def vietnamese_family_names : List String :=
  ["Nguyễn", "Trần", "Lê", "Phạm", "Hoàng", "Vũ", "Đỗ", "Bùi", "Đinh",
   "Ngô", "Dương", "Võ", "Phan", "Trương", "Lý", "Cao", "Trịnh", "Mai",
   "Lâm", "Tôn", "Hà", "Quách", "Thôi", "Kiều", "Đàng", "Lưu", "Triệu",
   "Tô", "Đặng", "Đoàn", "Hồ", "Ứng", "Vi", "Kim", "Ong", "Thái", "Yến",
   "Chu"]

def vietnamese_middle_names_male : List String :=
  ["Văn", "Hữu", "Quốc", "Minh", "Đình", "Thanh", "Hoàng", "Gia", "Thế",
   "Trung", "Xuân", "Hải", "Nam", "Anh", "Tùng", "Cường", "Duy", "Hùng",
   "Quân", "Phong", "Sơn", "Hào", "Kiệt", "Mạnh", "Phúc", "Lộc", "Thành",
   "Thiên", "Nhật", "Long"]

def vietnamese_middle_names_female : List String :=
  ["Thị", "Ngọc", "Thanh", "Thúy", "Hoài", "Quỳnh", "Lan", "Hương", "Linh",
   "Thu", "Oanh", "Yến", "Anh", "Tuyết", "Diễm", "My", "Lệ", "Kim", "Xuân",
   "Hà", "Giang", "Ngân", "Vy", "Trang", "Phương", "Quyên", "Thảo",
   "Duyên", "Chi"]

def vietnamese_first_names_male : List String :=
  ["An", "Bảo", "Bình", "Chiến", "Chương", "Dũng", "Đại", "Đạt", "Đức",
   "Giàu", "Hào", "Hiếu", "Hoài", "Hùng", "Huy", "Khang", "Khiêm", "Kiên",
   "Khoa", "Khôi", "Linh", "Long", "Luân", "Mạnh", "Nam", "Nghĩa", "Nhân",
   "Phi", "Phong", "Phúc", "Quốc", "Quân", "Quyết", "Sáng", "Sơn",
   "Strong", "Tài", "Tâm", "Tấn", "Thái", "Thành", "Thiên", "Thiện",
   "Thắng", "Thịnh", "Tiến", "Toàn", "Trí", "Trung", "Trường", "Tú",
   "Tuấn", "Tùng", "Vinh", "Vũ", "Xuân", "Yến"]

def vietnamese_first_names_female : List String :=
  ["An", "Anh", "Ái", "Băng", "Bi", "Chi", "Chinh", "Dung", "Diễm",
   "Giang", "Gia", "Hà", "Hân", "Hiền", "Hoài", "Hoa", "Hồng", "Huyền",
   "Hương", "Khánh", "Kiều", "Lam", "Lan", "Linh", "Loan", "Lộc", "Lựu",
   "Ly", "Mai", "Mẫn", "My", "Nga", "Nghi", "Ngọc", "Nhi", "Như", "Oanh",
   "Phong", "Phượng", "Quyên", "Quỳnh", "Sao", "Sương", "Thu", "Thảo",
   "Thủy", "Tiên", "Trang", "Trinh", "Trúc", "Tú", "Tuyền", "Tường", "Vy",
   "Xuân", "Yến", "Ánh", "Bảo", "Cúc"]

/-- A combining mark by code point. -/
def markChar (n : Nat) : Char := Char.ofNat n

/-- Embeds `unicodedata.normalize('NFD', ·)`, tabulated for every character that
occurs in the generator's name pools (all other characters, including ASCII
and the non-decomposing 'Đ' U+0110, are NFD-inert and map to themselves). -/
def nfdChar (c : Char) : List Char :=
  match c with
  | 'Á' => ['A', markChar 0x301]
  | 'à' => ['a', markChar 0x300]
  | 'á' => ['a', markChar 0x301]
  | 'â' => ['a', markChar 0x302]
  | 'ê' => ['e', markChar 0x302]
  | 'ì' => ['i', markChar 0x300]
  | 'í' => ['i', markChar 0x301]
  | 'ô' => ['o', markChar 0x302]
  | 'õ' => ['o', markChar 0x303]
  | 'ù' => ['u', markChar 0x300]
  | 'ú' => ['u', markChar 0x301]
  | 'ý' => ['y', markChar 0x301]
  | 'ă' => ['a', markChar 0x306]
  | 'ĩ' => ['i', markChar 0x303]
  | 'ũ' => ['u', markChar 0x303]
  | 'ơ' => ['o', markChar 0x31B]
  | 'ư' => ['u', markChar 0x31B]
  | 'ạ' => ['a', markChar 0x323]
  | 'ả' => ['a', markChar 0x309]
  | 'ấ' => ['a', markChar 0x302, markChar 0x301]
  | 'ầ' => ['a', markChar 0x302, markChar 0x300]
  | 'ẫ' => ['a', markChar 0x302, markChar 0x303]
  | 'ậ' => ['a', markChar 0x323, markChar 0x302]
  | 'ắ' => ['a', markChar 0x306, markChar 0x301]
  | 'ặ' => ['a', markChar 0x323, markChar 0x306]
  | 'ế' => ['e', markChar 0x302, markChar 0x301]
  | 'ề' => ['e', markChar 0x302, markChar 0x300]
  | 'ễ' => ['e', markChar 0x302, markChar 0x303]
  | 'ệ' => ['e', markChar 0x323, markChar 0x302]
  | 'ị' => ['i', markChar 0x323]
  | 'ọ' => ['o', markChar 0x323]
  | 'ố' => ['o', markChar 0x302, markChar 0x301]
  | 'ồ' => ['o', markChar 0x302, markChar 0x300]
  | 'ỗ' => ['o', markChar 0x302, markChar 0x303]
  | 'ộ' => ['o', markChar 0x323, markChar 0x302]
  | 'ờ' => ['o', markChar 0x31B, markChar 0x300]
  | 'ợ' => ['o', markChar 0x31B, markChar 0x323]
  | 'ủ' => ['u', markChar 0x309]
  | 'Ứ' => ['U', markChar 0x31B, markChar 0x301]
  | 'ứ' => ['u', markChar 0x31B, markChar 0x301]
  | 'ữ' => ['u', markChar 0x31B, markChar 0x303]
  | 'ự' => ['u', markChar 0x31B, markChar 0x323]
  | 'ỳ' => ['y', markChar 0x300]
  | c => [c]

/-- Embeds `unicodedata.combining(c) != 0` for the marks producible by `nfdChar`:
grave, acute, circumflex, tilde, breve, hook above, horn, dot below. -/
def isCombiningMark (c : Char) : Bool :=
  [0x300, 0x301, 0x302, 0x303, 0x306, 0x309, 0x31B, 0x323].contains c.toNat

/-- The explicit `diacritic_map` override of `remove_vietnamese_diacritics`
(each pattern is a single character, so the `str.replace` loop is a
character map). -/
def overrideChar (c : Char) : Char :=
  match c with
  | 'Đ' => 'D'
  | 'đ' => 'd'
  | 'Ă' => 'A'
  | 'ă' => 'a'
  | 'Â' => 'A'
  | 'â' => 'a'
  | 'Ê' => 'E'
  | 'ê' => 'e'
  | 'Ô' => 'O'
  | 'ô' => 'o'
  | 'Ơ' => 'O'
  | 'ơ' => 'o'
  | 'Ư' => 'U'
  | 'ư' => 'u'
  | c => c

/-- Embeds `remove_vietnamese_diacritics`: NFD-normalise, drop combining marks,
then apply the override map. -/
def remove_vietnamese_diacritics (l : List Char) : List Char :=
  ((l.flatMap nfdChar).filter (fun c => !isCombiningMark c)).map overrideChar

/-- Python `str.upper` on one character, modelled on the ASCII range (the
post-strip alphabet of the generator is ASCII). -/
def pyUpperChar (c : Char) : Char :=
  if 'a' ≤ c ∧ c ≤ 'z' then Char.ofNat (c.toNat - 32) else c

/-- Python `str.lower` on one character, modelled on the ASCII range. -/
def pyLowerChar (c : Char) : Char :=
  if 'A' ≤ c ∧ c ≤ 'Z' then Char.ofNat (c.toNat + 32) else c

/-- Embeds `part[0].upper() + part[1:].lower() if len(part) > 1 else part.upper()`. -/
def capitalizeWord : List Char → List Char
  | [] => []
  | [c] => [pyUpperChar c]
  | c :: rest => pyUpperChar c :: rest.map pyLowerChar

/-- Worker for Python `str.split()`: split on space runs, dropping empty
pieces (space is the only whitespace reachable after the strip). -/
def splitAux : List Char → List Char → List (List Char)
  | [], acc => if acc.isEmpty then [] else [acc.reverse]
  | c :: cs, acc =>
    if c = ' ' then
      (if acc.isEmpty then splitAux cs [] else acc.reverse :: splitAux cs [])
    else splitAux cs (c :: acc)

/-- Python `str.split()` with no separator argument. -/
def pySplit (l : List Char) : List (List Char) := splitAux l []

/-- Embeds `' '.join(parts)`. -/
def joinWords : List (List Char) → List Char
  | [] => []
  | w :: ws => w ++ ws.flatMap (fun u => ' ' :: u)

/-- Embeds `generate_vietnamese_name` after the pool draws: assemble
`f"{family} {middle} {first}"`, strip diacritics, re-title-case word by
word. -/
def generatedAsciiName (family middle first : String) : List Char :=
  let vn := family.data ++ ' ' :: middle.data ++ ' ' :: first.data
  joinWords ((pySplit (remove_vietnamese_diacritics vn)).map capitalizeWord)

/-- An ASCII letter. -/
def isAsciiLetter (c : Char) : Bool :=
  ('A' ≤ c ∧ c ≤ 'Z') || ('a' ≤ c ∧ c ≤ 'z')

/-- An ASCII letter or the space character. -/
def isAsciiLetterOrSpace (c : Char) : Bool :=
  isAsciiLetter c || c = ' '

/-- The per-pool-entry certificate: the stripped form of a name part is
nonempty, space-free, and title-cases to ASCII letters only. -/
def strippedPartOk (s : String) : Bool :=
  let t := remove_vietnamese_diacritics s.data
  !t.isEmpty && t.all (fun c => !(c = ' ')) && (capitalizeWord t).all isAsciiLetter

/-! ## RFM features (`create_rfm_features`, `5_ml_environment_setup.py`) -/

/-- Insertion into a sorted list (ascending). -/
def insertSorted (x : ℚ) : List ℚ → List ℚ
  | [] => [x]
  | y :: ys => if x ≤ y then x :: y :: ys else y :: insertSorted x ys

/-- Ascending sort, as used by the quantile computation. -/
def sortAsc (xs : List ℚ) : List ℚ := xs.foldr insertSorted []

/-- The `q`-th quantile of `xs` with numpy's default linear interpolation:
position `q * (n - 1)` between the order statistics. -/
def pyQuantile (xs : List ℚ) (q : ℚ) : ℚ :=
  let s := sortAsc xs
  let pos : ℚ := q * ((s.length : ℚ) - 1)
  let i : Nat := (Int.floor pos).toNat
  let lo := s.getD i 0
  let hi := s.getD (i + 1) lo
  lo + (pos - (i : ℚ)) * (hi - lo)

/-- The four interior bin edges of `pd.qcut(values, 5)`: the 20/40/60/80 %
quantiles (the outer edges only delimit the data range). -/
def qcutInteriorEdges (values : List ℚ) : List ℚ :=
  [pyQuantile values (1/5), pyQuantile values (2/5),
   pyQuantile values (3/5), pyQuantile values (4/5)]

/-- The 0-based bucket `pd.qcut` assigns to `v`: bins are right-closed, so
the bucket index is the number of interior edges strictly below `v`. -/
def qcutBucket (values : List ℚ) (v : ℚ) : Nat :=
  ((qcutInteriorEdges values).filter (fun e => decide (e < v))).length

/-- The reversed label vector `labels=[5,4,3,2,1]` of the recency binning. -/
def recencyLabels : List Int := [5, 4, 3, 2, 1]

/-- Embeds `pd.qcut(recency, 5, labels=[5,4,3,2,1]).astype(int)` for one customer:
the recency score attached to the bucket of `v`. -/
def recency_score (values : List ℚ) (v : ℚ) : Int :=
  recencyLabels.getD (qcutBucket values v) 0

/-! ## Concrete fixtures used to instantiate the universally quantified
theorems on closed inputs -/

def sampleCustomer : CustomerRow :=
  ⟨some "c1", "SP", none, "Diamond"⟩

def sampleOrder : OrderRow :=
  ⟨"o1", some "c1", "delivered", some 0, some 0, some 0, some 0⟩

def sampleItem : OrderItemRow :=
  ⟨"o1", 1, some "p1", some "s1", 0, 0⟩

/-- A merged order-item row whose delivery date was never recorded. -/
def sampleMergedNoDeliv : OrdersMergedRow :=
  ⟨"o1", 1, some "c1", some "p1", some "s1", "delivered", some 0, some 0,
   none, none, 0, 0, none, 0, 0, none⟩

def sampleWarehouse : Warehouse :=
  ⟨[(1, sampleCustomer)], [(1, ⟨some "p1"⟩)], [(1, ⟨some "s1"⟩)], [⟨10, 0⟩], []⟩

def sampleDatasets : Datasets :=
  { orders_merged := some [sampleMergedNoDeliv] }

/-- The single row of `transformOrders [sampleOrder] [sampleItem] none`:
delivered exactly on the estimated date (delay 0). -/
def sampleMergedRow : OrdersMergedRow :=
  addPayments none (addDeliveryMetrics (mergeOrderItem sampleOrder sampleItem))

/-- A merged row whose delivery timestamps are absent (undefined delay). -/
def sampleMergedRowNoDates : OrdersMergedRow :=
  addPayments none (addDeliveryMetrics
    (mergeOrderItem ⟨"o2", some "c1", "shipped", some 0, some 0, none, none⟩
      ⟨"o2", 1, some "p1", some "s1", 0, 0⟩))

/-- The single fact-frame row built from `sampleWarehouse` and
`sampleMergedNoDeliv`: the purchase date resolves to date key 10, the
missing delivery date leaves `delivery_date_key` null. -/
def sampleFactNoDeliv : FactRow :=
  { order_id := "o1"
    order_item_id := 1
    customer_key := 1
    product_key := 1
    seller_key := 1
    order_date_key := some 10
    order_status := "delivered"
    price := 0
    freight_value := 0
    payment_installments := none
    order_purchase_timestamp := some 0
    order_delivered_customer_date := none
    order_estimated_delivery_date := none
    delivery_delay_days := none
    is_delivered_ontime := 0
    is_fast_delivery := 0
    total_value := 0 + 0
    delivery_date_key := none
    location_key := 0
    created_date := 0
    updated_date := 0 }

def emptyWarehouse : Warehouse := ⟨[], [], [], [], []⟩

def emptyDatasets : Datasets := {}

/-! ## Supporting lemmas -/

theorem assignKeys_map_snd {R : Type} (start : Nat) (rs : List R) :
    (assignKeys start rs).map Prod.snd = rs := by
  induction rs generalizing start with
  | nil => rfl
  | cons r rs ih => simp [assignKeys, ih]

theorem keyDiff_eq_nil {R K : Type} [DecidableEq K] (existing : List K)
    (incoming : List R) (key : R → K)
    (h : ∀ r ∈ incoming, key r ∈ existing) :
    keyDiff existing incoming key = [] := by
  simp only [keyDiff, List.filter_eq_nil_iff]
  intro r hr
  simp [h r hr]

theorem keyDiff_covers {R K : Type} [DecidableEq K] (existing : List K)
    (incoming : List R) (key : R → K) :
    ∀ r ∈ incoming, key r ∈ existing ++ (keyDiff existing incoming key).map key := by
  intro r hr
  by_cases h : key r ∈ existing
  · exact List.mem_append_left _ h
  · refine List.mem_append_right _ ?_
    exact List.mem_map_of_mem key (List.mem_filter.2 ⟨hr, by simp [h]⟩)

/-- Every value of `tierChoice` lies in the four-element support of the
random draw. -/
theorem tierChoice_mem (r : ℚ) :
    tierChoice r ∈ ["Bronze", "Silver", "Gold", "Platinum"] := by
  unfold tierChoice
  split_ifs <;> simp

/-- Decomposing membership in the vectorised customer transform. -/
theorem mem_transformCustomers {draws : Nat → ℚ} {i : Nat}
    {cs : List CustomerRow} {r : CustomerRow}
    (hr : r ∈ transformCustomers draws i cs) :
    ∃ j c, c ∈ cs ∧ r = transformCustomer (draws j) c := by
  induction cs generalizing i with
  | nil => simp [transformCustomers] at hr
  | cons c cs ih =>
    simp only [transformCustomers, List.mem_cons] at hr
    rcases hr with hr | hr
    · exact ⟨i, c, by simp, hr⟩
    · obtain ⟨j, c', hc', he⟩ := ih hr
      exact ⟨j, c', by simp [hc'], he⟩

/-- Decomposing membership in the orders transform output. -/
theorem mem_transformOrders {os : List OrderRow} {its : List OrderItemRow}
    {ps : Option (List PaymentRow)} {r : OrdersMergedRow}
    (hr : r ∈ transformOrders os its ps) :
    ∃ b, r = addPayments ps (addDeliveryMetrics b) := by
  simp only [transformOrders, List.mem_map] at hr
  obtain ⟨x, ⟨b, _, rfl⟩, rfl⟩ := hr
  exact ⟨b, rfl⟩

/-! ## C2 — region is a deterministic function of state -/

/-- C2: two customer rows with the same state always receive the same
region, both in the ETL transform (state→region map applied to
`customer_state`, independently of the random tier draw) and in the
generator's city/state/region table. -/
theorem region_deterministic_of_state (d1 d2 : ℚ) (c1 c2 : CustomerRow)
    (e1 e2 : CityEntry)
    (hc : c1.customer_state = c2.customer_state)
    (he1 : e1 ∈ vietnamese_cities) (he2 : e2 ∈ vietnamese_cities)
    (he : e1.state = e2.state) :
    (transformCustomer d1 c1).customer_region
        = (transformCustomer d2 c2).customer_region
    ∧ e1.region = e2.region := by
  refine ⟨by simp [transformCustomer, hc], ?_⟩
  have h : ∀ a ∈ vietnamese_cities, ∀ b ∈ vietnamese_cities,
      a.state = b.state → a.region = b.region := by decide
  exact h e1 he1 e2 he2 he

/-- Witness for C2 at two concrete customer rows sharing state `SP` and a
concrete city entry. -/
theorem region_deterministic_of_state_witness :
    sampleCustomer.customer_state
        = (⟨some "c2", "SP", none, "VIP"⟩ : CustomerRow).customer_state
    ∧ (⟨"Hanoi", "Hanoi", "North"⟩ : CityEntry) ∈ vietnamese_cities
    ∧ (⟨"Hanoi", "Hanoi", "North"⟩ : CityEntry).state
        = (⟨"Hanoi", "Hanoi", "North"⟩ : CityEntry).state
    ∧ ((transformCustomer 0 sampleCustomer).customer_region
          = (transformCustomer (1/2) ⟨some "c2", "SP", none, "VIP"⟩).customer_region
        ∧ (⟨"Hanoi", "Hanoi", "North"⟩ : CityEntry).region
          = (⟨"Hanoi", "Hanoi", "North"⟩ : CityEntry).region) :=
  ⟨rfl, by decide, rfl,
   region_deterministic_of_state 0 (1/2) sampleCustomer ⟨some "c2", "SP", none, "VIP"⟩
     ⟨"Hanoi", "Hanoi", "North"⟩ ⟨"Hanoi", "Hanoi", "North"⟩ rfl (by decide) (by decide) rfl⟩

/-! ## C9 — the transform overwrites the customer tier -/

/-- C9: every customer row emitted by the customers branch of
`transform_data` carries a tier freshly drawn from
{Bronze, Silver, Gold, Platinum} — never Diamond or VIP — and the drawn
tier does not depend on the tier the input row carried. -/
theorem transform_overwrites_tier (draws : Nat → ℚ) (i : Nat)
    (cs : List CustomerRow) (r : CustomerRow) (d : ℚ) (c : CustomerRow) (t : String)
    (hr : r ∈ transformCustomers draws i cs) :
    r.customer_tier ∈ ["Bronze", "Silver", "Gold", "Platinum"]
    ∧ r.customer_tier ≠ "Diamond"
    ∧ r.customer_tier ≠ "VIP"
    ∧ (transformCustomer d { c with customer_tier := t }).customer_tier
        = (transformCustomer d c).customer_tier := by
  obtain ⟨j, c', _, rfl⟩ := mem_transformCustomers hr
  have hm := tierChoice_mem (draws j)
  have hne : tierChoice (draws j) ≠ "Diamond" ∧ tierChoice (draws j) ≠ "VIP" := by
    simp only [List.mem_cons, List.not_mem_nil, or_false] at hm
    rcases hm with h | h | h | h <;> rw [h] <;> exact ⟨by decide, by decide⟩
  exact ⟨hm, hne.1, hne.2, rfl⟩

/-- Witness for C9: a Diamond-tier input row is re-tiered to Bronze. -/
theorem transform_overwrites_tier_witness :
    transformCustomer 0 sampleCustomer
        ∈ transformCustomers (fun _ => 0) 0 [sampleCustomer]
    ∧ ((transformCustomer 0 sampleCustomer).customer_tier
          ∈ ["Bronze", "Silver", "Gold", "Platinum"]
        ∧ (transformCustomer 0 sampleCustomer).customer_tier ≠ "Diamond"
        ∧ (transformCustomer 0 sampleCustomer).customer_tier ≠ "VIP"
        ∧ (transformCustomer 0 { sampleCustomer with customer_tier := "VIP" }).customer_tier
          = (transformCustomer 0 sampleCustomer).customer_tier) :=
  ⟨by simp [transformCustomers],
   transform_overwrites_tier (fun _ => 0) 0 [sampleCustomer]
     (transformCustomer 0 sampleCustomer) 0 sampleCustomer "VIP"
     (by simp [transformCustomers])⟩

/-! ## C3 / C10 — delivery-delay metrics -/

/-- The payments step leaves the delivery metrics and date columns alone. -/
theorem addPayments_fields (ps : Option (List PaymentRow)) (r : OrdersMergedRow) :
    (addPayments ps r).delivery_delay_days = r.delivery_delay_days
    ∧ (addPayments ps r).is_delivered_ontime = r.is_delivered_ontime
    ∧ (addPayments ps r).is_fast_delivery = r.is_fast_delivery
    ∧ (addPayments ps r).order_delivered_customer_date = r.order_delivered_customer_date
    ∧ (addPayments ps r).order_estimated_delivery_date = r.order_estimated_delivery_date := by
  cases ps <;> simp [addPayments]

/-- The metric columns of a transformed order row, in terms of the merged
base row. -/
theorem transformOrders_row_fields (ps : Option (List PaymentRow))
    (b : OrdersMergedRow) :
    (addPayments ps (addDeliveryMetrics b)).delivery_delay_days
        = deliveryDelayDays b.order_delivered_customer_date b.order_estimated_delivery_date
    ∧ (addPayments ps (addDeliveryMetrics b)).is_delivered_ontime
        = ontimeFlag (deliveryDelayDays b.order_delivered_customer_date
            b.order_estimated_delivery_date)
    ∧ (addPayments ps (addDeliveryMetrics b)).is_fast_delivery
        = fastFlag (deliveryDelayDays b.order_delivered_customer_date
            b.order_estimated_delivery_date)
    ∧ (addPayments ps (addDeliveryMetrics b)).order_delivered_customer_date
        = b.order_delivered_customer_date
    ∧ (addPayments ps (addDeliveryMetrics b)).order_estimated_delivery_date
        = b.order_estimated_delivery_date := by
  cases ps <;> simp [addPayments, addDeliveryMetrics]

/-- C3: on every merged order-item row with a defined delay,
`delivery_delay_days` is the whole-day difference between the delivered
and estimated dates, `is_delivered_ontime` holds iff the delay is ≤ 0,
`is_fast_delivery` holds iff it is < 0, and a delay of exactly 0 is
on-time but not fast. -/
theorem delivery_metrics_correct (os : List OrderRow) (its : List OrderItemRow)
    (ps : Option (List PaymentRow)) (r : OrdersMergedRow) (d : Int)
    (hr : r ∈ transformOrders os its ps)
    (hd : r.delivery_delay_days = some d) :
    r.delivery_delay_days
        = deliveryDelayDays r.order_delivered_customer_date
            r.order_estimated_delivery_date
    ∧ (r.is_delivered_ontime = 1 ↔ d ≤ 0)
    ∧ (r.is_fast_delivery = 1 ↔ d < 0)
    ∧ (d = 0 → r.is_delivered_ontime = 1 ∧ r.is_fast_delivery = 0) := by
  obtain ⟨b, rfl⟩ := mem_transformOrders hr
  obtain ⟨h1, h2, h3, h4, h5⟩ := transformOrders_row_fields ps b
  rw [h1] at hd
  rw [h1, h2, h3, h4, h5, hd]
  refine ⟨rfl, ?_, ?_, ?_⟩
  · show (if d ≤ 0 then (1 : Int) else 0) = 1 ↔ d ≤ 0
    split_ifs with h <;> simp [h]
  · show (if d < 0 then (1 : Int) else 0) = 1 ↔ d < 0
    split_ifs with h <;> simp [h]
  · intro h0
    subst h0
    exact ⟨rfl, rfl⟩

/-- Witness for C3 at a concrete order delivered exactly on the estimated
date. -/
theorem delivery_metrics_correct_witness :
    sampleMergedRow ∈ transformOrders [sampleOrder] [sampleItem] none
    ∧ sampleMergedRow.delivery_delay_days = some 0
    ∧ (sampleMergedRow.delivery_delay_days
          = deliveryDelayDays sampleMergedRow.order_delivered_customer_date
              sampleMergedRow.order_estimated_delivery_date
        ∧ (sampleMergedRow.is_delivered_ontime = 1 ↔ (0 : Int) ≤ 0)
        ∧ (sampleMergedRow.is_fast_delivery = 1 ↔ (0 : Int) < 0)
        ∧ ((0 : Int) = 0 →
            sampleMergedRow.is_delivered_ontime = 1
            ∧ sampleMergedRow.is_fast_delivery = 0)) :=
  ⟨List.mem_singleton.2 rfl, rfl,
   delivery_metrics_correct [sampleOrder] [sampleItem] none sampleMergedRow 0
     (List.mem_singleton.2 rfl) rfl⟩

/-- C10: `is_fast_delivery` implies `is_delivered_ontime` on every
transformed order row, and a row with an undefined delay gets 0 for both
flags. -/
theorem fast_implies_ontime (os : List OrderRow) (its : List OrderItemRow)
    (ps : Option (List PaymentRow)) (r : OrdersMergedRow)
    (hr : r ∈ transformOrders os its ps) :
    (r.is_fast_delivery = 1 → r.is_delivered_ontime = 1)
    ∧ (r.delivery_delay_days = none →
        r.is_delivered_ontime = 0 ∧ r.is_fast_delivery = 0) := by
  obtain ⟨b, rfl⟩ := mem_transformOrders hr
  obtain ⟨h1, h2, h3, _, _⟩ := transformOrders_row_fields ps b
  rw [h1, h2, h3]
  cases hD : deliveryDelayDays b.order_delivered_customer_date
      b.order_estimated_delivery_date with
  | none => simp [ontimeFlag, fastFlag]
  | some d =>
    refine ⟨?_, by simp⟩
    show (if d < 0 then (1 : Int) else 0) = 1 → (if d ≤ 0 then (1 : Int) else 0) = 1
    split_ifs with hlt hle <;> omega

/-- Witness for C10 at a concrete row with no recorded delivery dates. -/
theorem fast_implies_ontime_witness :
    sampleMergedRowNoDates
        ∈ transformOrders [⟨"o2", some "c1", "shipped", some 0, some 0, none, none⟩]
            [⟨"o2", 1, some "p1", some "s1", 0, 0⟩] none
    ∧ ((sampleMergedRowNoDates.is_fast_delivery = 1 →
          sampleMergedRowNoDates.is_delivered_ontime = 1)
        ∧ (sampleMergedRowNoDates.delivery_delay_days = none →
            sampleMergedRowNoDates.is_delivered_ontime = 0
            ∧ sampleMergedRowNoDates.is_fast_delivery = 0)) :=
  ⟨List.mem_singleton.2 rfl,
   fast_implies_ontime [⟨"o2", some "c1", "shipped", some 0, some 0, none, none⟩]
     [⟨"o2", 1, some "p1", some "s1", 0, 0⟩] none sampleMergedRowNoDates
     (List.mem_singleton.2 rfl)⟩

/-! ## C5 — data-quality report -/

/-- C5: the quality score equals 100 minus 10 per counted null, floored at
0 and never above 100, and the report carries the timestamp, the per-table
row counts and the two named null checks. -/
theorem quality_report_correct (now : Int) (w : Warehouse) :
    (run_data_quality_checks now w).data_quality_score
        = max 0 (100 - 10 * (((run_data_quality_checks now w).customers_with_null_ids : Int)
            + ((run_data_quality_checks now w).orders_with_null_dates : Int)))
    ∧ (run_data_quality_checks now w).data_quality_score ≤ 100
    ∧ 0 ≤ (run_data_quality_checks now w).data_quality_score
    ∧ (run_data_quality_checks now w).timestamp = now
    ∧ (run_data_quality_checks now w).customers_count = w.dim_customer.length
    ∧ (run_data_quality_checks now w).products_count = w.dim_product.length
    ∧ (run_data_quality_checks now w).orders_count = w.fact_sales.length
    ∧ (run_data_quality_checks now w).customers_with_null_ids
        = (w.dim_customer.filter (fun p => p.2.customer_id.isNone)).length
    ∧ (run_data_quality_checks now w).orders_with_null_dates
        = (w.fact_sales.filter (fun r => r.order_purchase_timestamp.isNone)).length := by
  refine ⟨?_, ?_, ?_, rfl, rfl, rfl, rfl, rfl, rfl⟩ <;>
    · simp only [run_data_quality_checks]
      omega

/-! ## C7 — recency scoring is antitone -/

/-- Counting list elements below a threshold is monotone in the threshold. -/
theorem filter_lt_length_mono (l : List ℚ) {v1 v2 : ℚ} (h : v1 ≤ v2) :
    (l.filter (fun e => decide (e < v1))).length
      ≤ (l.filter (fun e => decide (e < v2))).length := by
  induction l with
  | nil => simp
  | cons e l ih =>
    by_cases he : e < v1
    · have he2 : e < v2 := lt_of_lt_of_le he h
      simp [List.filter_cons, he, he2]
      omega
    · by_cases he2 : e < v2 <;> simp [List.filter_cons, he, he2] <;> omega

/-- A qcut bucket index never exceeds 4 (there are four interior edges). -/
theorem qcutBucket_le_four (values : List ℚ) (v : ℚ) :
    qcutBucket values v ≤ 4 := by
  have h := List.length_filter_le (fun e => decide (e < v)) (qcutInteriorEdges values)
  have h4 : (qcutInteriorEdges values).length = 4 := rfl
  rw [h4] at h
  exact h

/-- The reversed label vector reads `5 - bucket` on valid bucket indices. -/
theorem recencyLabels_getD (b : Nat) (hb : b ≤ 4) :
    recencyLabels.getD b 0 = 5 - (b : Int) := by
  interval_cases b <;> decide

/-- C7: a customer with a smaller recency value lands in a weakly lower
qcut bucket and receives a recency score at least as high; the lowest
bucket scores 5 and the highest bucket scores 1. -/
theorem rfm_recency_score_antitone (values : List ℚ) (v1 v2 : ℚ) (h : v1 ≤ v2) :
    (qcutBucket values v1 ≤ qcutBucket values v2
      ∧ recency_score values v2 ≤ recency_score values v1)
    ∧ (qcutBucket values v1 = 0 → recency_score values v1 = 5)
    ∧ (qcutBucket values v2 = 4 → recency_score values v2 = 1) := by
  have hmono : qcutBucket values v1 ≤ qcutBucket values v2 :=
    filter_lt_length_mono _ h
  have h1 := qcutBucket_le_four values v1
  have h2 := qcutBucket_le_four values v2
  refine ⟨⟨hmono, ?_⟩, ?_, ?_⟩
  · simp only [recency_score, recencyLabels_getD _ h1, recencyLabels_getD _ h2]
    omega
  · intro h0
    simp [recency_score, h0, recencyLabels]
  · intro h4
    simp [recency_score, h4, recencyLabels]

/-- Witness for C7 on the customer set {0, 10, 20, 30, 40} at the extreme
recencies 0 and 40. -/
theorem rfm_recency_score_antitone_witness :
    ((0 : ℚ) ≤ 40)
    ∧ ((qcutBucket [0, 10, 20, 30, 40] 0 ≤ qcutBucket [0, 10, 20, 30, 40] 40
        ∧ recency_score [0, 10, 20, 30, 40] 40 ≤ recency_score [0, 10, 20, 30, 40] 0)
      ∧ (qcutBucket [0, 10, 20, 30, 40] 0 = 0 →
          recency_score [0, 10, 20, 30, 40] 0 = 5)
      ∧ (qcutBucket [0, 10, 20, 30, 40] 40 = 4 →
          recency_score [0, 10, 20, 30, 40] 40 = 1)) :=
  ⟨by norm_num, rfm_recency_score_antitone [0, 10, 20, 30, 40] 0 40 (by norm_num)⟩

/-! ## C8 — a load failure aborts the pipeline without compensation -/

/-- A failure injected before step `k` leaves exactly the first `k` load
blocks committed and surfaces the database error. -/
theorem runStepsF_fail (steps : List (Warehouse → Warehouse)) (k : Nat)
    (w : Warehouse) (hk : k < steps.length) :
    runStepsF steps (some k) w = (applySteps steps k w, some "database error") := by
  induction steps generalizing k w with
  | nil => simp at hk
  | cons s rest ih =>
    cases k with
    | zero => simp [runStepsF, applySteps]
    | succ n =>
      have hn : n < rest.length := by simpa using hk
      simp only [runStepsF, applySteps, List.take_succ_cons, List.foldl_cons]
      exact ih n (s w) hn

/-- C8: when the database raises during load block `k`, `load_data` logs the
error and re-raises it; the pipeline then stops with a `failed` result — the
quality-check stage never runs — while the appends of the blocks that
completed before the failure stay committed (the resulting warehouse is the
fold of the first `k` blocks, with no rollback). -/
theorem load_failure_aborts_pipeline (failK : Nat) (tierDraws : Nat → ℚ)
    (now : Int) (ds : Datasets) (w : Warehouse) (hk : failK < 4) :
    load_data_fallible (some failK) now (transform_data tierDraws ds) w
      = (applySteps (loadSteps now (transform_data tierDraws ds)) failK w,
         ["Error loading data: database error"], some "database error")
    ∧ run_etl_pipeline (some failK) tierDraws now ds w
      = (applySteps (loadSteps now (transform_data tierDraws ds)) failK w,
         ["Error loading data: database error", "ETL Pipeline failed: database error"],
         PipelineResult.failed "database error") := by
  have hlen : failK < (loadSteps now (transform_data tierDraws ds)).length := by
    simpa [loadSteps] using hk
  have hrun := runStepsF_fail (loadSteps now (transform_data tierDraws ds)) failK w hlen
  constructor
  · simp [load_data_fallible, hrun]
  · simp [run_etl_pipeline, load_data_fallible, hrun]

/-- Witness for C8: injecting a failure at load block 1 on empty inputs. -/
theorem load_failure_aborts_pipeline_witness :
    (1 < 4)
    ∧ (load_data_fallible (some 1) 0 (transform_data (fun _ => 0) emptyDatasets)
          emptyWarehouse
        = (applySteps (loadSteps 0 (transform_data (fun _ => 0) emptyDatasets)) 1
            emptyWarehouse,
           ["Error loading data: database error"], some "database error")
      ∧ run_etl_pipeline (some 1) (fun _ => 0) 0 emptyDatasets emptyWarehouse
        = (applySteps (loadSteps 0 (transform_data (fun _ => 0) emptyDatasets)) 1
            emptyWarehouse,
           ["Error loading data: database error", "ETL Pipeline failed: database error"],
           PipelineResult.failed "database error")) :=
  ⟨by decide,
   load_failure_aborts_pipeline 1 (fun _ => 0) 0 emptyDatasets emptyWarehouse (by decide)⟩

/-! ## C1 — re-running the loader appends nothing -/

theorem assignKeys_map_key {R K : Type} (key : R → K) (s : Nat) (rs : List R) :
    (assignKeys s rs).map (fun p => key p.2) = rs.map key := by
  induction rs generalizing s with
  | nil => rfl
  | cons r rs ih => simp [assignKeys, ih]

/-- The key column of a dimension table after a load block: the old keys
followed by the keys of the freshly appended rows. -/
theorem loadDimTable_map_key {R : Type} [DecidableEq R] (key : R → Option String)
    (inc : List R) (tbl : List (Nat × R)) :
    (loadDimTable key (some inc) tbl).map (fun p => key p.2)
      = tbl.map (fun p => key p.2)
        ++ (keyDiff (tbl.map (fun p => key p.2)) inc key).map key := by
  simp only [loadDimTable]
  cases hKD : keyDiff (tbl.map (fun p => key p.2)) inc key with
  | nil => simp
  | cons a l => simp [assignKeys_map_key]

/-- After a dimension load block every incoming key is present. -/
theorem loadDimTable_covers {R : Type} [DecidableEq R] (key : R → Option String)
    (inc : List R) (tbl : List (Nat × R)) :
    ∀ r ∈ inc, key r ∈ (loadDimTable key (some inc) tbl).map (fun p => key p.2) := by
  intro r hrr
  rw [loadDimTable_map_key]
  exact keyDiff_covers _ _ _ r hrr

/-- A dimension load block whose incoming keys are all present appends
nothing. -/
theorem loadDimTable_noop {R : Type} [DecidableEq R] (key : R → Option String)
    (inc : List R) (tbl : List (Nat × R))
    (h : ∀ r ∈ inc, key r ∈ tbl.map (fun p => key p.2)) :
    loadDimTable key (some inc) tbl = tbl := by
  have hkd := keyDiff_eq_nil (tbl.map (fun p => key p.2)) inc key h
  simp [loadDimTable, hkd]

/-- The dimension load block is idempotent. -/
theorem loadDimTable_idem {R : Type} [DecidableEq R] (key : R → Option String)
    (inc : Option (List R)) (tbl : List (Nat × R)) :
    loadDimTable key inc (loadDimTable key inc tbl) = loadDimTable key inc tbl := by
  cases inc with
  | none => rfl
  | some l => exact loadDimTable_noop key l _ (loadDimTable_covers key l tbl)

/-- The fact block touches no dimension table. -/
theorem loadFactsStep_dims (now : Int) (ds : Datasets) (w : Warehouse) :
    (loadFactsStep now ds w).dim_customer = w.dim_customer
    ∧ (loadFactsStep now ds w).dim_product = w.dim_product
    ∧ (loadFactsStep now ds w).dim_seller = w.dim_seller
    ∧ (loadFactsStep now ds w).dim_date = w.dim_date := by
  unfold loadFactsStep
  cases ds.orders_merged with
  | none => exact ⟨rfl, rfl, rfl, rfl⟩
  | some sales =>
    dsimp only
    split <;> exact ⟨rfl, rfl, rfl, rfl⟩

theorem map_finalize_order_id (now : Int) (l : List FactRow) :
    (l.map (finalizeFactRow now)).map FactRow.order_id = l.map FactRow.order_id := by
  simp only [List.map_map]
  rfl

/-- After the fact block every order id of the fact frame is present in
`fact_sales`. -/
theorem loadFactsStep_ids (now : Int) (ds : Datasets) (w : Warehouse)
    (sales : List OrdersMergedRow) (hs : ds.orders_merged = some sales) :
    ∀ r ∈ buildFactFrame w.dim_customer w.dim_product w.dim_seller w.dim_date sales,
      r.order_id ∈ (loadFactsStep now ds w).fact_sales.map FactRow.order_id := by
  intro r hr
  have hcov := keyDiff_covers (w.fact_sales.map FactRow.order_id)
    (buildFactFrame w.dim_customer w.dim_product w.dim_seller w.dim_date sales)
    FactRow.order_id r hr
  simp only [loadFactsStep, hs]
  cases hKD : keyDiff (w.fact_sales.map FactRow.order_id)
      (buildFactFrame w.dim_customer w.dim_product w.dim_seller w.dim_date sales)
      FactRow.order_id with
  | nil =>
    rw [hKD] at hcov
    simpa using hcov
  | cons a l =>
    rw [hKD] at hcov
    simp only [hKD, List.isEmpty_cons, Bool.false_eq_true, if_false, List.map_append,
      map_finalize_order_id]
    simpa using hcov

/-- A fact block whose frame only repeats known order ids appends nothing. -/
theorem loadFactsStep_noop (now : Int) (ds : Datasets) (w : Warehouse)
    (sales : List OrdersMergedRow) (hs : ds.orders_merged = some sales)
    (h : ∀ r ∈ buildFactFrame w.dim_customer w.dim_product w.dim_seller w.dim_date sales,
        r.order_id ∈ w.fact_sales.map FactRow.order_id) :
    loadFactsStep now ds w = w := by
  have hkd := keyDiff_eq_nil (w.fact_sales.map FactRow.order_id)
    (buildFactFrame w.dim_customer w.dim_product w.dim_seller w.dim_date sales)
    FactRow.order_id h
  simp [loadFactsStep, hs, hkd]

/-- C1: the load step is idempotent — running `load_data` a second time on
the identical transformed input diffs every incoming frame against the keys
already present (customer, product and seller ids for the dimensions, order
ids for the facts) and appends nothing, leaving the warehouse untouched
whatever audit timestamp the second run uses. -/
theorem load_data_idempotent (now now2 : Int) (ds : Datasets) (w : Warehouse) :
    load_data now2 ds (load_data now ds w) = load_data now ds w := by
  obtain ⟨hfc, hfp, hfs, hfd⟩ := loadFactsStep_dims now ds
    (loadSellersStep ds (loadProductsStep ds (loadCustomersStep ds w)))
  -- the dimension tables of the run-1 result, in diffed form
  have hdc : (load_data now ds w).dim_customer
      = loadDimTable CustomerRow.customer_id ds.customers w.dim_customer := hfc
  have hdp : (load_data now ds w).dim_product
      = loadDimTable ProductRow.product_id ds.products w.dim_product := hfp
  have hds : (load_data now ds w).dim_seller
      = loadDimTable SellerRow.seller_id ds.sellers w.dim_seller := hfs
  -- run 2, customers block: appends nothing
  have s1 : loadCustomersStep ds (load_data now ds w) = load_data now ds w := by
    unfold loadCustomersStep
    rw [hdc, loadDimTable_idem, ← hdc]
  -- run 2, products block
  have s2 : loadProductsStep ds (load_data now ds w) = load_data now ds w := by
    unfold loadProductsStep
    rw [hdp, loadDimTable_idem, ← hdp]
  -- run 2, sellers block
  have s3 : loadSellersStep ds (load_data now ds w) = load_data now ds w := by
    unfold loadSellersStep
    rw [hds, loadDimTable_idem, ← hds]
  -- run 2, fact block
  have s4 : loadFactsStep now2 ds (load_data now ds w) = load_data now ds w := by
    cases hom : ds.orders_merged with
    | none => simp [loadFactsStep, hom]
    | some sales =>
      refine loadFactsStep_noop now2 ds _ sales hom ?_
      intro r hr
      unfold load_data at hr
      rw [hfc, hfp, hfs, hfd] at hr
      exact loadFactsStep_ids now ds
        (loadSellersStep ds (loadProductsStep ds (loadCustomersStep ds w)))
        sales hom r hr
  show loadFactsStep now2 ds (loadSellersStep ds (loadProductsStep ds
      (loadCustomersStep ds (load_data now ds w)))) = load_data now ds w
  rw [s1, s2, s3, s4]

/-! ## C4 — delivery-date key falls back to the order-date key -/

/-- C4: every new fact row appended by the fact block whose delivery-date
key is still null after the delivery-date join gets
`delivery_date_key = order_date_key`, and the appended rows are exactly the
finalised key-diffed frame rows. -/
theorem delivery_key_fallback (now : Int) (ds : Datasets) (w : Warehouse)
    (sales : List OrdersMergedRow) (r : FactRow)
    (hs : ds.orders_merged = some sales)
    (hr : r ∈ keyDiff (w.fact_sales.map FactRow.order_id)
        (buildFactFrame w.dim_customer w.dim_product w.dim_seller w.dim_date sales)
        FactRow.order_id)
    (hmiss : r.delivery_date_key = none) :
    (finalizeFactRow now r).delivery_date_key = r.order_date_key
    ∧ (loadFactsStep now ds w).fact_sales
        = w.fact_sales
          ++ (keyDiff (w.fact_sales.map FactRow.order_id)
                (buildFactFrame w.dim_customer w.dim_product w.dim_seller w.dim_date sales)
                FactRow.order_id).map (finalizeFactRow now) := by
  constructor
  · simp [finalizeFactRow, hmiss]
  · simp only [loadFactsStep, hs]
    cases hKD : keyDiff (w.fact_sales.map FactRow.order_id)
        (buildFactFrame w.dim_customer w.dim_product w.dim_seller w.dim_date sales)
        FactRow.order_id with
    | nil => rw [hKD] at hr; simp at hr
    | cons a l => simp

/-- Witness for C4: a concrete order with no recorded delivery date; its
fact row is appended with the order-date key in the delivery-key column. -/
theorem delivery_key_fallback_witness :
    sampleDatasets.orders_merged = some [sampleMergedNoDeliv]
    ∧ sampleFactNoDeliv
        ∈ keyDiff (sampleWarehouse.fact_sales.map FactRow.order_id)
            (buildFactFrame sampleWarehouse.dim_customer sampleWarehouse.dim_product
              sampleWarehouse.dim_seller sampleWarehouse.dim_date [sampleMergedNoDeliv])
            FactRow.order_id
    ∧ sampleFactNoDeliv.delivery_date_key = none
    ∧ ((finalizeFactRow 7 sampleFactNoDeliv).delivery_date_key
          = sampleFactNoDeliv.order_date_key
        ∧ (loadFactsStep 7 sampleDatasets sampleWarehouse).fact_sales
          = sampleWarehouse.fact_sales
            ++ (keyDiff (sampleWarehouse.fact_sales.map FactRow.order_id)
                  (buildFactFrame sampleWarehouse.dim_customer sampleWarehouse.dim_product
                    sampleWarehouse.dim_seller sampleWarehouse.dim_date
                    [sampleMergedNoDeliv])
                  FactRow.order_id).map (finalizeFactRow 7)) :=
  ⟨rfl, List.mem_singleton.2 rfl, rfl,
   delivery_key_fallback 7 sampleDatasets sampleWarehouse [sampleMergedNoDeliv]
     sampleFactNoDeliv rfl (List.mem_singleton.2 rfl) rfl⟩

/-! ## C6 — generated names are ASCII letters and spaces -/

theorem rvd_append (a b : List Char) :
    remove_vietnamese_diacritics (a ++ b)
      = remove_vietnamese_diacritics a ++ remove_vietnamese_diacritics b := by
  simp [remove_vietnamese_diacritics]

theorem rvd_space_cons (b : List Char) :
    remove_vietnamese_diacritics (' ' :: b)
      = ' ' :: remove_vietnamese_diacritics b := by
  have h1 : nfdChar ' ' = [' '] := rfl
  have h2 : isCombiningMark ' ' = false := rfl
  have h3 : overrideChar ' ' = ' ' := rfl
  simp [remove_vietnamese_diacritics, h1, h2, h3]

theorem splitAux_no_space (l : List Char) (acc : List Char) (hne : l ≠ [])
    (hns : ∀ c ∈ l, ¬(c = ' ')) :
    splitAux l acc = [acc.reverse ++ l] := by
  induction l generalizing acc with
  | nil => cases hne rfl
  | cons x xs ih =>
    have hx : ¬(x = ' ') := hns x (by simp)
    have hns' : ∀ c ∈ xs, ¬(c = ' ') := fun c hc => hns c (by simp [hc])
    cases xs with
    | nil => simp [splitAux, hx]
    | cons y ys =>
      rw [splitAux, if_neg hx, ih (x :: acc) (by simp) hns']
      simp

theorem splitAux_sep (l rest : List Char) (acc : List Char) (hne : l ≠ [])
    (hns : ∀ c ∈ l, ¬(c = ' ')) :
    splitAux (l ++ ' ' :: rest) acc = (acc.reverse ++ l) :: splitAux rest [] := by
  induction l generalizing acc with
  | nil => cases hne rfl
  | cons x xs ih =>
    have hx : ¬(x = ' ') := hns x (by simp)
    have hns' : ∀ c ∈ xs, ¬(c = ' ') := fun c hc => hns c (by simp [hc])
    cases xs with
    | nil => simp [splitAux, hx]
    | cons y ys =>
      rw [List.cons_append, splitAux, if_neg hx, ih (x :: acc) (by simp) hns']
      simp

/-- Python `split()` of the three-part name string. -/
theorem pySplit_three (p1 p2 p3 : List Char)
    (h1 : p1 ≠ []) (h1s : ∀ c ∈ p1, ¬(c = ' '))
    (h2 : p2 ≠ []) (h2s : ∀ c ∈ p2, ¬(c = ' '))
    (h3 : p3 ≠ []) (h3s : ∀ c ∈ p3, ¬(c = ' ')) :
    pySplit (p1 ++ ' ' :: (p2 ++ ' ' :: p3)) = [p1, p2, p3] := by
  unfold pySplit
  rw [splitAux_sep p1 _ [] h1 h1s, splitAux_sep p2 _ [] h2 h2s,
    splitAux_no_space p3 [] h3 h3s]
  simp

theorem all_letter_imp_letterOrSpace (w : List Char)
    (h : w.all isAsciiLetter = true) : w.all isAsciiLetterOrSpace = true := by
  rw [List.all_eq_true] at *
  intro c hc
  have hc' := h c hc
  simp [isAsciiLetterOrSpace, hc']

theorem joinTail_letters (ws : List (List Char))
    (h : ∀ w ∈ ws, w.all isAsciiLetter = true) :
    (ws.flatMap (fun u => ' ' :: u)).all isAsciiLetterOrSpace = true := by
  induction ws with
  | nil => rfl
  | cons u us ih =>
    rw [List.flatMap_cons, List.all_append, Bool.and_eq_true]
    refine ⟨?_, ih (fun w hw => h w (List.mem_cons_of_mem u hw))⟩
    rw [List.all_cons, Bool.and_eq_true]
    exact ⟨rfl, all_letter_imp_letterOrSpace u (h u (List.mem_cons_self u us))⟩

theorem joinWords_letters (ws : List (List Char))
    (h : ∀ w ∈ ws, w.all isAsciiLetter = true) :
    (joinWords ws).all isAsciiLetterOrSpace = true := by
  cases ws with
  | nil => rfl
  | cons w rest =>
    rw [joinWords, List.all_append, Bool.and_eq_true]
    exact ⟨all_letter_imp_letterOrSpace w (h w (List.mem_cons_self w rest)),
      joinTail_letters rest (fun u hu => h u (List.mem_cons_of_mem w hu))⟩

/-- Every family-name pool entry strips to a nonempty, space-free,
ASCII-title-casable part. -/
theorem family_names_ok :
    ∀ s ∈ vietnamese_family_names, strippedPartOk s = true := by decide

theorem middle_male_ok :
    ∀ s ∈ vietnamese_middle_names_male, strippedPartOk s = true := by decide

theorem middle_female_ok :
    ∀ s ∈ vietnamese_middle_names_female, strippedPartOk s = true := by decide

theorem first_male_ok :
    ∀ s ∈ vietnamese_first_names_male, strippedPartOk s = true := by decide

theorem first_female_ok :
    ∀ s ∈ vietnamese_first_names_female, strippedPartOk s = true := by decide

theorem strippedPartOk_spec (s : String) (h : strippedPartOk s = true) :
    remove_vietnamese_diacritics s.data ≠ []
    ∧ (∀ c ∈ remove_vietnamese_diacritics s.data, ¬(c = ' '))
    ∧ (capitalizeWord (remove_vietnamese_diacritics s.data)).all isAsciiLetter = true := by
  simp only [strippedPartOk, Bool.and_eq_true] at h
  obtain ⟨⟨h1, h2⟩, h3⟩ := h
  refine ⟨?_, ?_, h3⟩
  · intro hnil
    rw [hnil] at h1
    simp at h1
  · rw [List.all_eq_true] at h2
    intro c hc
    have := h2 c hc
    simpa using this

/-- C6: every name assembled from the generator's pools (family name plus
middle and first name of either gender), after diacritic stripping with the
override map and re-title-casing, consists of ASCII letters and spaces
only. -/
theorem generated_names_ascii (f m fn : String)
    (hf : f ∈ vietnamese_family_names)
    (hm : m ∈ vietnamese_middle_names_male ∨ m ∈ vietnamese_middle_names_female)
    (hfn : fn ∈ vietnamese_first_names_male ∨ fn ∈ vietnamese_first_names_female) :
    (generatedAsciiName f m fn).all isAsciiLetterOrSpace = true := by
  obtain ⟨hf1, hf2, hf3⟩ := strippedPartOk_spec f (family_names_ok f hf)
  obtain ⟨hm1, hm2, hm3⟩ := strippedPartOk_spec m (by
    rcases hm with h | h
    exacts [middle_male_ok m h, middle_female_ok m h])
  obtain ⟨hn1, hn2, hn3⟩ := strippedPartOk_spec fn (by
    rcases hfn with h | h
    exacts [first_male_ok fn h, first_female_ok fn h])
  simp only [generatedAsciiName]
  rw [rvd_append, rvd_space_cons, rvd_append, rvd_space_cons,
    List.append_assoc, List.cons_append,
    pySplit_three _ _ _ hf1 hf2 hm1 hm2 hn1 hn2]
  refine joinWords_letters _ ?_
  intro w hw
  simp only [List.map_cons, List.map_nil, List.mem_cons, List.not_mem_nil,
    or_false] at hw
  rcases hw with rfl | rfl | rfl
  exacts [hf3, hm3, hn3]

/-- Witness for C6 at the concrete name "Nguyễn Văn An". -/
theorem generated_names_ascii_witness :
    "Nguyễn" ∈ vietnamese_family_names
    ∧ ("Văn" ∈ vietnamese_middle_names_male
        ∨ "Văn" ∈ vietnamese_middle_names_female)
    ∧ ("An" ∈ vietnamese_first_names_male
        ∨ "An" ∈ vietnamese_first_names_female)
    ∧ (generatedAsciiName "Nguyễn" "Văn" "An").all isAsciiLetterOrSpace = true :=
  ⟨by decide, Or.inl (by decide), Or.inl (by decide),
   generated_names_ascii "Nguyễn" "Văn" "An" (by decide) (Or.inl (by decide))
     (Or.inl (by decide))⟩

end TGDD
